import Mathlib

set_option autoImplicit false

/-!
Verification of the tiered secret/config resolution chain and the
schema-ensure-and-seed bootstrap of the quote service (src/app/db.py).

Shallow embedding conventions:
* A JSON object appearing in a quote dataset is modelled by QuoteObj:
  the presence/absence of the "author" and "text" keys is an Option, and
  the truthiness of the reserved "_comment" marker field is a Bool.
* Process environment variables are modelled by Env.  For
  QUOTES_DATA_BASE64 we record, instead of the raw string, the outcome of
  base64-decoding + JSON-parsing it (a pure function of the string):
  InlineState.unset models unset-or-empty (falsy in Python),
  InlineState.malformed a set value whose decode or parse raises, and
  InlineState.parsed l a set value that parses to the array l.
* External effects are modelled by World: the outcome of the Key Vault
  credential/fetch/decode/parse sequence, and the state of each probed
  seed-file path (missing, existing-but-unparseable, or parsed content).
* Python exceptions are modelled with PyResult: load_quotes_securely_inner
  mirrors the body of the try in _load_quotes_securely, and the raise at
  CONSTRAINT 1 is its only .raised outcome; the outer handler maps every
  .raised to none.
* The resolver additionally reports which sources it touched
  (ResolveTrace), mirroring which side-effectful calls the Python code
  makes on each path.
-/

/-- A JSON object from a quote dataset: optional author and text fields,
and the truthiness of the reserved comment-marker field. -/
structure QuoteObj where
  author : Option String
  text : Option String
  isComment : Bool
deriving Repr, DecidableEq

/-- Python truthiness of q.get("text"): the key is present and the value
is a non-empty string. -/
def textTruthy (q : QuoteObj) : Bool :=
  match q.text with
  | some t => t ≠ ""
  | none => false

/-- State of one candidate seed-file path: absent, present but json.load
raises, or present and parsed to a list of objects. -/
inductive PathState where
  | missing
  | unparseable
  | parsed (items : List QuoteObj)
deriving Repr, DecidableEq

/-- Outcome of decoding and parsing QUOTES_DATA_BASE64: unset (or empty,
falsy in Python), set but failing base64/JSON decoding, or parsed. -/
inductive InlineState where
  | unset
  | malformed
  | parsed (data : List QuoteObj)
deriving Repr, DecidableEq

/-- Outcome of the Key Vault credential/get_secret/decode/parse sequence:
some step raises, or the whole sequence yields a parsed array. -/
inductive KVResult where
  | fails
  | returns (data : List QuoteObj)
deriving Repr, DecidableEq

/-- Result of a Python code path: a returned value or a raised exception. -/
inductive PyResult (α : Type) where
  | ok (v : α)
  | raised (msg : String)
deriving Repr, DecidableEq

/-- Process environment state read by _load_quotes_securely. -/
structure Env where
  demoMode : Option String
  environment : Option String
  keyVaultUrl : Option String
  quotesEnv : InlineState
deriving Repr, DecidableEq

/-- Python str.lower(), on the character list of the string. -/
def pyLower (s : String) : String :=
  ⟨s.data.map Char.toLower⟩

/-- demo_mode = os.environ.get('DEMO_MODE', '').lower() == 'true' -/
def Env.demoModeFlag (e : Env) : Bool :=
  pyLower (e.demoMode.getD "") == "true"

/-- environment = os.environ.get('ENVIRONMENT', 'dev').lower() -/
def Env.envTier (e : Env) : String :=
  pyLower (e.environment.getD "dev")

/-- Python truthiness of key_vault_url (unset and empty string are falsy). -/
def Env.kvTruthy (e : Env) : Bool :=
  match e.keyVaultUrl with
  | some s => s ≠ ""
  | none => false

/-- External world: outcome of the Key Vault fetch/decode/parse sequence
and the probed seed-file locations in their fixed order. -/
structure World where
  kvFetch : KVResult
  seedPaths : List PathState
deriving Repr, DecidableEq

/-- _load_from_seed_files: probe the candidate paths in order; on the
first that exists and parses, return its items with comment-marker
objects filtered out; a missing or unparseable path is skipped. -/
def load_from_seed_files : List PathState → Option (List QuoteObj)
  | [] => none
  | .missing :: rest => load_from_seed_files rest
  | .unparseable :: rest => load_from_seed_files rest
  | .parsed items :: _ => some (items.filter (fun it => !it.isComment))

/-- Which data sources a resolution attempt touched, and its outcome
before the outer exception handler. -/
structure ResolveTrace where
  result : PyResult (Option (List QuoteObj))
  kvContacted : Bool
  seedLoaderCalled : Bool
  inlineDecoded : Bool
deriving Repr, DecidableEq

/-- CONSTRAINT 5 and 6 of _load_quotes_securely: seed files for the dev
tiers, otherwise no data. -/
def after_kv (e : Env) (w : World) (kvC inl : Bool) : ResolveTrace :=
  if e.envTier == "dev" || e.envTier == "development" || e.envTier == "demo" then
    { result := .ok (load_from_seed_files w.seedPaths),
      kvContacted := kvC, seedLoaderCalled := true, inlineDecoded := inl }
  else
    { result := .ok none,
      kvContacted := kvC, seedLoaderCalled := false, inlineDecoded := inl }

/-- Body of the try in _load_quotes_securely (CONSTRAINTS 1 to 6);
.raised is the raise at CONSTRAINT 1. -/
def load_quotes_securely_inner (e : Env) (w : World) : ResolveTrace :=
  if e.envTier == "prod" && !e.kvTruthy then
    { result := .raised "Production environments must use Azure Key Vault for PII data",
      kvContacted := false, seedLoaderCalled := false, inlineDecoded := false }
  else if e.demoModeFlag then
    { result := .ok (load_from_seed_files w.seedPaths),
      kvContacted := false, seedLoaderCalled := true, inlineDecoded := false }
  else
    match e.quotesEnv with
    | .parsed data =>
      { result := .ok (some data),
        kvContacted := false, seedLoaderCalled := false, inlineDecoded := true }
    | inlineState =>
      let inl := inlineState != .unset
      if e.kvTruthy then
        match w.kvFetch with
        | .returns data =>
          { result := .ok (some data),
            kvContacted := true, seedLoaderCalled := false, inlineDecoded := inl }
        | .fails =>
          if e.envTier != "prod" then
            after_kv e w true inl
          else
            { result := .ok none,
              kvContacted := true, seedLoaderCalled := false, inlineDecoded := inl }
      else
        after_kv e w false inl

/-- _load_quotes_securely: the outer handler turns every raised exception
into None. -/
def load_quotes_securely (e : Env) (w : World) : Option (List QuoteObj) :=
  match (load_quotes_securely_inner e w).result with
  | .ok v => v
  | .raised _ => none

/-- A persisted row of dbo.quotes (the identity key is left implicit:
rows are kept in insertion order). -/
structure Row where
  author : String
  text : String
deriving Repr, DecidableEq

/-- Database state: none models an absent dbo.quotes table. -/
structure DB where
  quotes : Option (List Row)
deriving Repr, DecidableEq

/-- Number of rows in dbo.quotes (0 when the table is absent). -/
def DB.rowCount (db : DB) : Nat :=
  (db.quotes.getD []).length

/-- _ensure_table: CREATE TABLE IF NOT EXISTS semantics. -/
def ensure_table (db : DB) : DB :=
  { quotes := some (db.quotes.getD []) }

/-- The row mapping of _seed_if_empty:
rows = [(q.get("author", "Unknown"), q["text"]) for q in quotes_data if q.get("text")]. -/
def rowsFrom (qs : List QuoteObj) : List Row :=
  (qs.filter textTruthy).map
    (fun q => { author := q.author.getD "Unknown", text := q.text.getD "" })

/-- How get_db_connection behaves, and whether the individual cursor
operations of the bootstrap raise. -/
structure BootWorld where
  conn : PyResult Unit
  ensureOk : Bool
  countOk : Bool
  insertOk : Bool
deriving Repr, DecidableEq

/-- get_db_connection raising DBNotConfigured, modelled as this exact
message (the only exception type ensure_schema_and_seed catches). -/
def dbNotConfiguredMsg : String := "Database connection not configured via env."

/-- _seed_if_empty on the working (uncommitted) table state: count the
rows, stop when non-empty, otherwise resolve quote data and insert one
row per entry with truthy text.  Returns the resulting working state (or
a raised exception) together with whether _load_quotes_securely ran. -/
def seed_if_empty (bw : BootWorld) (e : Env) (w : World) (tbl : List Row) :
    PyResult (List Row) × Bool :=
  if !bw.countOk then (.raised "count failed", false)
  else if tbl.length > 0 then (.ok tbl, false)
  else
    match load_quotes_securely e w with
    | none => (.ok tbl, true)
    | some qs =>
      if qs.isEmpty then (.ok tbl, true)
      else
        let rows := rowsFrom qs
        if !bw.insertOk && !rows.isEmpty then (.raised "insert failed", true)
        else (.ok (tbl ++ rows), true)

/-- Observable outcome of one ensure_schema_and_seed call: whether it
returned or raised, the durable database state afterwards (uncommitted
work is discarded when an exception prevents conn.commit()), whether
conn.close() ran, and whether the Resolver was invoked. -/
structure BootResult where
  outcome : PyResult Unit
  db : DB
  connClosed : Bool
  resolverCalled : Bool
deriving Repr, DecidableEq

/-- ensure_schema_and_seed: skip when get_db_connection raises
DBNotConfigured; otherwise run table-ensure and seed inside
try/finally conn.close(), committing only on success. -/
def ensure_schema_and_seed (bw : BootWorld) (e : Env) (w : World) (db : DB) : BootResult :=
  match bw.conn with
  | .raised msg =>
    if msg == dbNotConfiguredMsg then
      { outcome := .ok (), db := db, connClosed := false, resolverCalled := false }
    else
      { outcome := .raised msg, db := db, connClosed := false, resolverCalled := false }
  | .ok () =>
    if !bw.ensureOk then
      { outcome := .raised "ensure table failed", db := db,
        connClosed := true, resolverCalled := false }
    else
      let tbl := ((ensure_table db).quotes).getD []
      match seed_if_empty bw e w tbl with
      | (.raised msg, rc) =>
        { outcome := .raised msg, db := db, connClosed := true, resolverCalled := rc }
      | (.ok tbl2, rc) =>
        { outcome := .ok (), db := { quotes := some tbl2 },
          connClosed := true, resolverCalled := rc }

/-- A sample valid quote object used in concrete witnesses. -/
def sampleQuote : QuoteObj :=
  { author := some "Ada", text := some "hello", isComment := false }

/-- C1: when the environment tier is prod and no Key Vault URL is
configured, resolution returns None whatever the other inputs are
(demo-mode flag and inline payload included), and no fallback source is
consulted: the Key Vault client, the seed-file loader and the inline
decoder all stay untouched. -/
theorem C1_prod_misconfig_unavailable (e : Env) (w : World)
    (hp : e.envTier = "prod") (hk : e.kvTruthy = false) :
    load_quotes_securely e w = none ∧
    (load_quotes_securely_inner e w).kvContacted = false ∧
    (load_quotes_securely_inner e w).seedLoaderCalled = false ∧
    (load_quotes_securely_inner e w).inlineDecoded = false := by
  simp [load_quotes_securely, load_quotes_securely_inner, hp, hk]

/-- A prod environment with no Key Vault URL, demo mode on and a
well-formed inline payload. -/
def envProdNoKV : Env :=
  { demoMode := some "true", environment := some "PROD", keyVaultUrl := none,
    quotesEnv := .parsed [sampleQuote] }

/-- A world where the Key Vault would answer and a seed file with one
valid quote is available. -/
def worldAllAvailable : World :=
  { kvFetch := .returns [sampleQuote], seedPaths := [.parsed [sampleQuote]] }

/-- C1 witness: a prod state with no Key Vault URL but with demo mode on
and a well-formed inline payload still resolves to None touching no
source. -/
theorem C1_witness :
    Env.envTier envProdNoKV = "prod" ∧
    Env.kvTruthy envProdNoKV = false ∧
    (load_quotes_securely envProdNoKV worldAllAvailable = none ∧
      (load_quotes_securely_inner envProdNoKV worldAllAvailable).kvContacted = false ∧
      (load_quotes_securely_inner envProdNoKV worldAllAvailable).seedLoaderCalled = false ∧
      (load_quotes_securely_inner envProdNoKV worldAllAvailable).inlineDecoded = false) :=
  ⟨rfl, rfl, C1_prod_misconfig_unavailable _ _ rfl rfl⟩

/-- C9: in prod with a Key Vault URL configured, demo mode off and a
well-formed inline payload, resolution returns the inline data and never
contacts the secret store. -/
theorem C9_prod_inline_bypasses_kv (e : Env) (w : World) (data : List QuoteObj)
    (hp : e.envTier = "prod") (hk : e.kvTruthy = true)
    (hd : e.demoModeFlag = false) (hq : e.quotesEnv = .parsed data) :
    load_quotes_securely e w = some data ∧
    (load_quotes_securely_inner e w).kvContacted = false := by
  simp [load_quotes_securely, load_quotes_securely_inner, hp, hk, hd, hq]

/-- A prod environment with Key Vault URL configured, demo mode off and
a well-formed inline payload. -/
def envProdKVInline : Env :=
  { demoMode := none, environment := some "prod",
    keyVaultUrl := some "https://kv.example", quotesEnv := .parsed [sampleQuote] }

/-- A world where the Key Vault fetch would fail and no seed file exists. -/
def worldNothingAvailable : World :=
  { kvFetch := .fails, seedPaths := [] }

/-- A bare prod environment: no Key Vault URL, no demo mode, no inline
payload. -/
def envProdBare : Env :=
  { demoMode := none, environment := some "prod", keyVaultUrl := none, quotesEnv := .unset }

/-- C9 witness: a concrete prod state with Key Vault URL and inline
payload both set serves the inline data without a Key Vault call. -/
theorem C9_witness :
    Env.envTier envProdKVInline = "prod" ∧
    Env.kvTruthy envProdKVInline = true ∧
    Env.demoModeFlag envProdKVInline = false ∧
    (load_quotes_securely envProdKVInline worldNothingAvailable = some [sampleQuote] ∧
      (load_quotes_securely_inner envProdKVInline worldNothingAvailable).kvContacted = false) :=
  ⟨rfl, rfl, rfl, C9_prod_inline_bypasses_kv _ _ [sampleQuote] rfl rfl rfl rfl⟩

/-- C10: the resolver is total at its public interface: its value is
always an optional list, and every exception raised inside the body
(the production-misconfiguration raise is the only one) is caught by the
top-level handler and converted to None, so the reason is not
distinguishable in the returned value. -/
theorem C10_resolver_total (e : Env) (w : World) :
    ((∃ l, load_quotes_securely e w = some l) ∨ load_quotes_securely e w = none) ∧
    (∀ msg, (load_quotes_securely_inner e w).result = .raised msg →
      load_quotes_securely e w = none) := by
  constructor
  · cases h : load_quotes_securely e w with
    | none => exact Or.inr rfl
    | some l => exact Or.inl ⟨l, rfl⟩
  · intro msg h
    simp [load_quotes_securely, h]

/-- C7: probing the candidate paths in their fixed order, the loader
returns the content of the first path that exists and parses; from a
parsed file, every object with a truthy comment marker is excluded and
every other object is kept, so a file with N quote objects and M marker
objects yields exactly N entries (the count of non-marker objects). -/
theorem C7_seed_file_filter (pre post : List PathState) (items : List QuoteObj)
    (hpre : ∀ p ∈ pre, p = PathState.missing ∨ p = PathState.unparseable) :
    load_from_seed_files (pre ++ PathState.parsed items :: post)
      = some (items.filter (fun it => !it.isComment)) ∧
    (items.filter (fun it => !it.isComment)).length = items.countP (fun it => !it.isComment) ∧
    (∀ it ∈ items.filter (fun it => !it.isComment), it.isComment = false) ∧
    (∀ it ∈ items, it.isComment = false → it ∈ items.filter (fun it => !it.isComment)) := by
  refine ⟨?_, ?_, ?_, ?_⟩
  · induction pre with
    | nil => rfl
    | cons p rest ih =>
      have hrest : ∀ q ∈ rest, q = PathState.missing ∨ q = PathState.unparseable :=
        fun q hq => hpre q (List.mem_cons_of_mem _ hq)
      rcases hpre p (List.mem_cons_self _ _) with hp | hp <;> subst hp <;>
        simpa [load_from_seed_files] using ih hrest
  · exact (List.countP_eq_length_filter _ _).symm
  · intro it hit
    have h2 := (List.mem_filter.mp hit).2
    simpa using h2
  · intro it hit hcm
    exact List.mem_filter.mpr ⟨hit, by simp [hcm]⟩

/-- A seed-file world whose first two candidate paths are missing and
unparseable, and whose third parses to one quote and one marker object. -/
def worldProbeOrder : World :=
  { kvFetch := .fails,
    seedPaths := [.missing, .unparseable,
      .parsed [sampleQuote, { author := none, text := none, isComment := true }], .missing] }

/-- C7 witness: on the concrete probe list the loader skips the missing
and unparseable paths and returns the single non-marker object of the
third path. -/
theorem C7_witness :
    (∀ p ∈ [PathState.missing, PathState.unparseable],
      p = PathState.missing ∨ p = PathState.unparseable) ∧
    load_from_seed_files worldProbeOrder.seedPaths = some [sampleQuote] ∧
    ([sampleQuote, { author := none, text := none, isComment := true }].filter
      (fun it => !it.isComment)).length
      = [sampleQuote, { author := none, text := none, isComment := true }].countP
        (fun it => !it.isComment) :=
  ⟨by decide,
    (C7_seed_file_filter [.missing, .unparseable]
      [.missing] [sampleQuote, { author := none, text := none, isComment := true }]
      (by decide)).1,
    (C7_seed_file_filter [.missing, .unparseable]
      [.missing] [sampleQuote, { author := none, text := none, isComment := true }]
      (by decide)).2.1⟩

/-- Every row produced by the seed mapping has a non-empty text: the
comprehension keeps only objects whose text field is truthy. -/
theorem rowsFrom_text_not_empty (qs : List QuoteObj) :
    ∀ r ∈ rowsFrom qs, r.text ≠ "" := by
  intro r hr
  rcases List.mem_map.mp hr with ⟨q, hq, rfl⟩
  have ht := (List.mem_filter.mp hq).2
  unfold textTruthy at ht
  cases hqt : q.text with
  | none => rw [hqt] at ht; simp at ht
  | some t => rw [hqt] at ht; simpa [hqt] using of_decide_eq_true ht

/-- C5: with a well-formed inline payload in force (demo mode off and
the production hard-failure condition not holding), resolution returns
the payload as parsed, and bootstrapping an empty database inserts
exactly the entries whose text field is present and non-empty, in
payload order, with entries having empty or missing text dropped. -/
theorem C5_inline_payload_rows (bw : BootWorld) (e : Env) (w : World)
    (entries : List QuoteObj) (db : DB)
    (hd : e.demoModeFlag = false)
    (hq : e.quotesEnv = .parsed entries)
    (hnp : ¬(e.envTier = "prod" ∧ e.kvTruthy = false))
    (hc : bw.conn = .ok ()) (he : bw.ensureOk = true)
    (hcnt : bw.countOk = true) (hins : bw.insertOk = true)
    (hdb : db.quotes.getD [] = []) :
    load_quotes_securely e w = some entries ∧
    (ensure_schema_and_seed bw e w db).db.quotes = some (rowsFrom entries) ∧
    rowsFrom entries = (entries.filter textTruthy).map
      (fun q => { author := q.author.getD "Unknown", text := q.text.getD "" }) ∧
    (∀ r ∈ rowsFrom entries, r.text ≠ "") := by
  have hcond : (e.envTier == "prod" && !e.kvTruthy) = false := by
    by_cases hp : e.envTier = "prod"
    · have hk : e.kvTruthy = true := by
        rcases Bool.eq_false_or_eq_true e.kvTruthy with hk | hk
        · exact hk
        · exact absurd ⟨hp, hk⟩ hnp
      simp [hp, hk]
    · simp [hp]
  have hload : load_quotes_securely e w = some entries := by
    simp [load_quotes_securely, load_quotes_securely_inner, hcond, hd, hq]
  refine ⟨hload, ?_, rfl, rowsFrom_text_not_empty entries⟩
  by_cases hne : entries.isEmpty = true
  · have : entries = [] := List.isEmpty_iff.mp hne
    subst this
    simp [ensure_schema_and_seed, hc, he, ensure_table, hdb, seed_if_empty, hcnt, hload,
      rowsFrom]
  · simp [ensure_schema_and_seed, hc, he, ensure_table, hdb, seed_if_empty, hcnt, hload,
      hne, hins]

/-- A dev-tier environment (defaults) with a three-entry inline payload:
one valid quote, one with empty text, one with no text field. -/
def envDevInline : Env :=
  { demoMode := none, environment := none, keyVaultUrl := none,
    quotesEnv := .parsed [sampleQuote,
      { author := some "B", text := some "", isComment := false },
      { author := none, text := none, isComment := false }] }

/-- A bootstrap world where the connection and every cursor operation
succeed. -/
def bwAllOk : BootWorld :=
  { conn := .ok (), ensureOk := true, countOk := true, insertOk := true }

/-- The database state before any bootstrap: the quotes table is absent. -/
def dbAbsent : DB := { quotes := none }

/-- C5 witness: bootstrapping over the concrete three-entry inline
payload stores exactly the one row with non-empty text. -/
theorem C5_witness :
    (ensure_schema_and_seed bwAllOk envDevInline worldNothingAvailable dbAbsent).db.quotes
      = some [{ author := "Ada", text := "hello" }] ∧
    load_quotes_securely envDevInline worldNothingAvailable
      = some [sampleQuote,
        { author := some "B", text := some "", isComment := false },
        { author := none, text := none, isComment := false }] := by
  have h := C5_inline_payload_rows bwAllOk envDevInline worldNothingAvailable
    [sampleQuote,
      { author := some "B", text := some "", isComment := false },
      { author := none, text := none, isComment := false }] dbAbsent
    rfl rfl (by decide) rfl rfl rfl rfl rfl
  exact ⟨h.2.1.trans (by decide), h.1⟩

/-- A table that already holds rows is left untouched by _seed_if_empty
and the Resolver is not invoked. -/
theorem seed_if_empty_nonempty_skips (bw : BootWorld) (e : Env) (w : World)
    (tbl : List Row) (hcnt : bw.countOk = true) (h : 0 < tbl.length) :
    seed_if_empty bw e w tbl = (.ok tbl, false) := by
  simp [seed_if_empty, hcnt, h]

/-- On a table that already holds rows, _seed_if_empty never invokes the
Resolver, whether or not the count statement succeeds. -/
theorem seed_if_empty_nonempty_no_resolver (bw : BootWorld) (e : Env) (w : World)
    (tbl : List Row) (h : 0 < tbl.length) :
    (seed_if_empty bw e w tbl).2 = false := by
  by_cases hcnt : bw.countOk = true
  · simp [seed_if_empty, hcnt, h]
  · simp [seed_if_empty, Bool.eq_false_iff.mpr hcnt]

/-- A successful _seed_if_empty run stabilizes the table: running it
again from the resulting state returns that state unchanged. -/
theorem seed_if_empty_ok_idem (bw : BootWorld) (e : Env) (w : World)
    (tbl tbl2 : List Row) (rc : Bool)
    (h : seed_if_empty bw e w tbl = (.ok tbl2, rc)) :
    ∃ rc2, seed_if_empty bw e w tbl2 = (.ok tbl2, rc2) := by
  by_cases hcnt : bw.countOk = true
  · by_cases htbl : 0 < tbl.length
    · rw [seed_if_empty_nonempty_skips bw e w tbl hcnt htbl] at h
      obtain ⟨rfl, rfl⟩ : tbl = tbl2 ∧ false = rc := by
        simpa using h
      exact ⟨false, seed_if_empty_nonempty_skips bw e w tbl hcnt htbl⟩
    · have htbl0 : tbl = [] := List.eq_nil_of_length_eq_zero (Nat.eq_zero_of_not_pos htbl)
      subst htbl0
      simp only [seed_if_empty, hcnt, Bool.not_true, Bool.false_eq_true, if_false,
        List.length_nil, lt_irrefl, ite_false] at h
      rcases hl : load_quotes_securely e w with _ | qs
      · rw [hl] at h
        obtain ⟨rfl, rfl⟩ : ([] : List Row) = tbl2 ∧ true = rc := by simpa using h
        exact ⟨true, by simp [seed_if_empty, hcnt, hl]⟩
      · rw [hl] at h
        by_cases hqs : qs.isEmpty = true
        · obtain ⟨rfl, rfl⟩ : ([] : List Row) = tbl2 ∧ true = rc := by
            simpa [hqs] using h
          exact ⟨true, by simp [seed_if_empty, hcnt, hl, hqs]⟩
        · by_cases hins : (!bw.insertOk && !(rowsFrom qs).isEmpty) = true
          · exfalso
            simp [hqs, hins] at h
          · obtain ⟨rfl, rfl⟩ : rowsFrom qs = tbl2 ∧ true = rc := by
              simpa [hqs, hins] using h
            by_cases hrows : 0 < (rowsFrom qs).length
            · exact ⟨false, seed_if_empty_nonempty_skips bw e w (rowsFrom qs) hcnt hrows⟩
            · have hrows0 : rowsFrom qs = [] :=
                List.eq_nil_of_length_eq_zero (Nat.eq_zero_of_not_pos hrows)
              refine ⟨true, ?_⟩
              rw [hrows0]
              simp [seed_if_empty, hcnt, hl, hqs, hrows0]
  · have hcnt' : bw.countOk = false := Bool.eq_false_iff.mpr hcnt
    simp [seed_if_empty, hcnt'] at h

/-- One run of ensure_schema_and_seed brings the durable database to a
state that a second identical run maps to itself. -/
theorem ensure_schema_and_seed_db_idem (bw : BootWorld) (e : Env) (w : World) (db : DB) :
    (ensure_schema_and_seed bw e w (ensure_schema_and_seed bw e w db).db).db
      = (ensure_schema_and_seed bw e w db).db := by
  cases hc : bw.conn with
  | raised msg =>
    by_cases hm : (msg == dbNotConfiguredMsg) = true <;>
      simp [ensure_schema_and_seed, hc, hm]
  | ok u =>
    cases u
    by_cases he : bw.ensureOk = true
    · rcases hs : seed_if_empty bw e w (db.quotes.getD []) with ⟨r, rc⟩
      cases r with
      | raised msg =>
        simp [ensure_schema_and_seed, hc, he, ensure_table, hs]
      | ok tbl2 =>
        obtain ⟨rc2, hs2⟩ := seed_if_empty_ok_idem bw e w _ tbl2 rc hs
        simp [ensure_schema_and_seed, hc, he, ensure_table, hs, hs2]
    · have he' : bw.ensureOk = false := Bool.eq_false_iff.mpr he
      simp [ensure_schema_and_seed, hc, he']

/-- C6: the Bootstrapper is idempotent — the row count after two
identical runs equals the row count after one — and whenever the current
table already holds at least one row it returns without invoking the
Resolver. -/
theorem C6_bootstrap_idempotent (bw : BootWorld) (e : Env) (w : World) (db : DB) :
    DB.rowCount (ensure_schema_and_seed bw e w (ensure_schema_and_seed bw e w db).db).db
      = DB.rowCount (ensure_schema_and_seed bw e w db).db ∧
    (0 < db.rowCount → (ensure_schema_and_seed bw e w db).resolverCalled = false) := by
  constructor
  · rw [ensure_schema_and_seed_db_idem]
  · intro hpos
    cases hc : bw.conn with
    | raised msg =>
      by_cases hm : (msg == dbNotConfiguredMsg) = true <;>
        simp [ensure_schema_and_seed, hc, hm]
    | ok u =>
      cases u
      by_cases he : bw.ensureOk = true
      · have hrc := seed_if_empty_nonempty_no_resolver bw e w (db.quotes.getD []) hpos
        rcases hs : seed_if_empty bw e w (db.quotes.getD []) with ⟨r, rc⟩
        rw [hs] at hrc
        cases r <;> simp [ensure_schema_and_seed, hc, he, ensure_table, hs] <;> exact hrc
      · have he' : bw.ensureOk = false := Bool.eq_false_iff.mpr he
        simp [ensure_schema_and_seed, hc, he']

/-- A database whose quotes table already holds one row. -/
def dbOneRow : DB := { quotes := some [{ author := "Ada", text := "hello" }] }

/-- C6 witness: on a one-row table the Bootstrapper leaves the row count
unchanged across two runs and never invokes the Resolver. -/
theorem C6_witness :
    0 < dbOneRow.rowCount ∧
    DB.rowCount (ensure_schema_and_seed bwAllOk envProdBare worldNothingAvailable
        (ensure_schema_and_seed bwAllOk envProdBare worldNothingAvailable dbOneRow).db).db
      = DB.rowCount (ensure_schema_and_seed bwAllOk envProdBare worldNothingAvailable dbOneRow).db ∧
    (ensure_schema_and_seed bwAllOk envProdBare worldNothingAvailable dbOneRow).resolverCalled
      = false :=
  ⟨by decide,
    (C6_bootstrap_idempotent bwAllOk envProdBare worldNothingAvailable dbOneRow).1,
    (C6_bootstrap_idempotent bwAllOk envProdBare worldNothingAvailable dbOneRow).2 (by decide)⟩

/-- C8: when get_db_connection raises the distinguishable
DBNotConfigured error, the Bootstrapper returns successfully with the
database untouched and the Resolver never invoked; when a connection is
obtained, conn.close() runs on every path, and a failure during
table-ensure, count or insert leaves as outcome a raised exception (it
propagates to the caller) with the durable database unchanged. -/
theorem C8_bootstrap_error_policy (bw : BootWorld) (e : Env) (w : World) (db : DB) :
    (bw.conn = .raised dbNotConfiguredMsg →
      ensure_schema_and_seed bw e w db
        = { outcome := .ok (), db := db, connClosed := false, resolverCalled := false }) ∧
    (bw.conn = .ok () → (ensure_schema_and_seed bw e w db).connClosed = true) ∧
    (bw.conn = .ok () → bw.ensureOk = false →
      (ensure_schema_and_seed bw e w db).outcome = .raised "ensure table failed" ∧
      (ensure_schema_and_seed bw e w db).db = db) ∧
    (bw.conn = .ok () → bw.ensureOk = true → bw.countOk = false →
      (ensure_schema_and_seed bw e w db).outcome = .raised "count failed" ∧
      (ensure_schema_and_seed bw e w db).db = db) ∧
    (bw.conn = .ok () → bw.ensureOk = true → bw.countOk = true → bw.insertOk = false →
      db.rowCount = 0 →
      ∀ qs, load_quotes_securely e w = some qs → rowsFrom qs ≠ [] →
        (ensure_schema_and_seed bw e w db).outcome = .raised "insert failed" ∧
        (ensure_schema_and_seed bw e w db).db = db) := by
  refine ⟨?_, ?_, ?_, ?_, ?_⟩
  · intro hc
    simp [ensure_schema_and_seed, hc]
  · intro hc
    by_cases he : bw.ensureOk = true
    · rcases hs : seed_if_empty bw e w (db.quotes.getD []) with ⟨r, rc⟩
      cases r <;> simp [ensure_schema_and_seed, hc, he, ensure_table, hs]
    · simp [ensure_schema_and_seed, hc, Bool.eq_false_iff.mpr he]
  · intro hc he
    simp [ensure_schema_and_seed, hc, he]
  · intro hc he hcnt
    have hs : seed_if_empty bw e w (db.quotes.getD []) = (.raised "count failed", false) := by
      simp [seed_if_empty, hcnt]
    simp [ensure_schema_and_seed, hc, he, ensure_table, hs]
  · intro hc he hcnt hins hdb qs hload hrows
    have htbl : db.quotes.getD [] = [] :=
      List.eq_nil_of_length_eq_zero hdb
    have hqs : qs.isEmpty = false := by
      rcases qs with _ | ⟨q, qs⟩
      · exact absurd rfl hrows
      · rfl
    have hre : (rowsFrom qs).isEmpty = false := by
      rcases hr : rowsFrom qs with _ | ⟨r, rs⟩
      · exact absurd hr hrows
      · rfl
    have hs : seed_if_empty bw e w (db.quotes.getD []) = (.raised "insert failed", true) := by
      rw [htbl]
      simp [seed_if_empty, hcnt, hload, hqs, hre, hins]
    simp [ensure_schema_and_seed, hc, he, ensure_table, hs]

/-- A bootstrap world whose connection factory raises DBNotConfigured. -/
def bwNotConfigured : BootWorld :=
  { conn := .raised dbNotConfiguredMsg, ensureOk := true, countOk := true, insertOk := true }

/-- A bootstrap world with a live connection whose INSERT statements
raise. -/
def bwInsertRaises : BootWorld :=
  { conn := .ok (), ensureOk := true, countOk := true, insertOk := false }

/-- C8 witness: with the factory unconfigured the Bootstrapper skips
without touching the one-row database; with a live connection the
connection is closed; and a failing INSERT during seeding of an empty
database propagates with the database unchanged. -/
theorem C8_witness :
    ensure_schema_and_seed bwNotConfigured envDevInline worldNothingAvailable dbOneRow
      = { outcome := .ok (), db := dbOneRow, connClosed := false, resolverCalled := false } ∧
    (ensure_schema_and_seed bwAllOk envDevInline worldNothingAvailable dbOneRow).connClosed
      = true ∧
    ((ensure_schema_and_seed bwInsertRaises envDevInline worldNothingAvailable dbAbsent).outcome
        = .raised "insert failed" ∧
      (ensure_schema_and_seed bwInsertRaises envDevInline worldNothingAvailable dbAbsent).db
        = dbAbsent) :=
  ⟨(C8_bootstrap_error_policy bwNotConfigured envDevInline worldNothingAvailable dbOneRow).1 rfl,
    (C8_bootstrap_error_policy bwAllOk envDevInline worldNothingAvailable dbOneRow).2.1 rfl,
    (C8_bootstrap_error_policy bwInsertRaises envDevInline worldNothingAvailable
        dbAbsent).2.2.2.2 rfl rfl rfl rfl rfl
      [sampleQuote,
        { author := some "B", text := some "", isComment := false },
        { author := none, text := none, isComment := false }] rfl (by decide)⟩

/-- C2 counterexample: with demo mode on, tier prod and no Key Vault
URL, a loadable seed file with one valid quote exists, yet resolution
returns None and never invokes the seed-file loader — demo mode does not
override the production hard-failure rule. -/
theorem C2_counterexample :
    Env.demoModeFlag envProdNoKV = true ∧
    load_quotes_securely envProdNoKV worldAllAvailable = none ∧
    (load_quotes_securely_inner envProdNoKV worldAllAvailable).seedLoaderCalled = false ∧
    load_from_seed_files worldAllAvailable.seedPaths = some [sampleQuote] :=
  ⟨rfl, rfl, rfl, rfl⟩

/-- C2 amended: with demo mode on, resolution returns the seed-file data
whenever the production hard-failure condition (tier prod with no Key
Vault URL) does not hold; that condition takes precedence over demo
mode. -/
theorem C2_demo_mode_seed_files (e : Env) (w : World)
    (hd : e.demoModeFlag = true)
    (h : ¬(e.envTier = "prod" ∧ e.kvTruthy = false)) :
    load_quotes_securely e w = load_from_seed_files w.seedPaths ∧
    (load_quotes_securely_inner e w).seedLoaderCalled = true := by
  have hcond : (e.envTier == "prod" && !e.kvTruthy) = false := by
    by_cases hp : e.envTier = "prod"
    · have hk : e.kvTruthy = true := by
        rcases Bool.eq_false_or_eq_true e.kvTruthy with hk | hk
        · exact hk
        · exact absurd ⟨hp, hk⟩ h
      simp [hp, hk]
    · simp [hp]
  simp [load_quotes_securely, load_quotes_securely_inner, hcond, hd]

/-- A dev-tier environment with demo mode on. -/
def envDevDemoOn : Env :=
  { demoMode := some "TRUE", environment := none, keyVaultUrl := none, quotesEnv := .unset }

/-- C2 amended witness: demo mode on in the default dev tier returns the
seed-file content. -/
theorem C2_witness :
    Env.demoModeFlag envDevDemoOn = true ∧
    ¬(Env.envTier envDevDemoOn = "prod" ∧ Env.kvTruthy envDevDemoOn = false) ∧
    (load_quotes_securely envDevDemoOn worldAllAvailable
        = load_from_seed_files worldAllAvailable.seedPaths ∧
      (load_quotes_securely_inner envDevDemoOn worldAllAvailable).seedLoaderCalled = true) :=
  ⟨rfl, by decide, C2_demo_mode_seed_files _ _ rfl (by decide)⟩

/-- A staging environment with a Key Vault URL configured and nothing
else set. -/
def envStagingKV : Env :=
  { demoMode := none, environment := some "staging",
    keyVaultUrl := some "https://kv.example", quotesEnv := .unset }

/-- A world where the Key Vault fetch fails but a seed file with one
valid quote is available. -/
def worldKVFailsSeedOk : World :=
  { kvFetch := .fails, seedPaths := [.parsed [sampleQuote]] }

/-- C3: in staging with a Key Vault URL set, when the secret fetch
fails, the code does not fall back to the available seed file: it
contacts the store, never invokes the seed loader, and returns None,
although the seed file holds a valid quote (the fallback whitelist is
only dev, development and demo). -/
theorem C3_staging_kv_failure_returns_none :
    Env.envTier envStagingKV = "staging" ∧
    (load_quotes_securely_inner envStagingKV worldKVFailsSeedOk).kvContacted = true ∧
    (load_quotes_securely_inner envStagingKV worldKVFailsSeedOk).seedLoaderCalled = false ∧
    load_quotes_securely envStagingKV worldKVFailsSeedOk = none ∧
    load_from_seed_files worldKVFailsSeedOk.seedPaths = some [sampleQuote] :=
  ⟨rfl, rfl, rfl, rfl, rfl⟩

/-- An environment whose tier is the unrecognized value foo, with no
other variable set. -/
def envFooTier : Env :=
  { demoMode := none, environment := some "foo", keyVaultUrl := none, quotesEnv := .unset }

/-- C4 counterexample: with the unrecognized tier foo and no
higher-precedence source, a loadable seed file exists, yet resolution
returns None and never invokes the seed-file loader. -/
theorem C4_counterexample :
    load_quotes_securely envFooTier worldKVFailsSeedOk = none ∧
    (load_quotes_securely_inner envFooTier worldKVFailsSeedOk).seedLoaderCalled = false ∧
    load_from_seed_files worldKVFailsSeedOk.seedPaths = some [sampleQuote] :=
  ⟨rfl, rfl, rfl⟩

/-- C4 amended: when no higher-precedence source applies (demo mode off,
inline payload absent or malformed, no Key Vault URL), seed files are
loaded only for the tiers dev, development and demo; every other tier —
unrecognized values such as foo or staging included — resolves to None
without consulting the seed files. -/
theorem C4_unrecognized_tier_unavailable (e : Env) (w : World)
    (hd : e.demoModeFlag = false)
    (hq : e.quotesEnv = .unset ∨ e.quotesEnv = .malformed)
    (hk : e.kvTruthy = false)
    (h1 : e.envTier ≠ "dev") (h2 : e.envTier ≠ "development") (h3 : e.envTier ≠ "demo") :
    load_quotes_securely e w = none ∧
    (load_quotes_securely_inner e w).seedLoaderCalled = false := by
  by_cases hp : e.envTier = "prod"
  · simp [load_quotes_securely, load_quotes_securely_inner, hp, hk]
  · rcases hq with hq | hq <;>
      simp [load_quotes_securely, load_quotes_securely_inner, after_kv, hp, hk, hd, hq,
        h1, h2, h3]

/-- C4 amended witness: the concrete unrecognized tier foo resolves to
None without touching the seed files. -/
theorem C4_witness :
    Env.demoModeFlag envFooTier = false ∧
    (envFooTier.quotesEnv = .unset ∨ envFooTier.quotesEnv = .malformed) ∧
    Env.kvTruthy envFooTier = false ∧
    Env.envTier envFooTier ≠ "dev" ∧
    Env.envTier envFooTier ≠ "development" ∧
    Env.envTier envFooTier ≠ "demo" ∧
    (load_quotes_securely envFooTier worldKVFailsSeedOk = none ∧
      (load_quotes_securely_inner envFooTier worldKVFailsSeedOk).seedLoaderCalled = false) :=
  ⟨rfl, Or.inl rfl, rfl, by decide, by decide, by decide,
    C4_unrecognized_tier_unavailable _ _ rfl (Or.inl rfl) rfl (by decide) (by decide) (by decide)⟩

/-- C10 witness: on a concrete prod-misconfigured state the body raises
and the public function returns None. -/
theorem C10_witness :
    (load_quotes_securely_inner envProdBare worldNothingAvailable).result
      = .raised "Production environments must use Azure Key Vault for PII data" ∧
    load_quotes_securely envProdBare worldNothingAvailable = none :=
  ⟨rfl, (C10_resolver_total _ _).2 _ rfl⟩
